import Mathlib

/-!
Shallow embedding of `src/node_server.py` (a minimal blockchain node) and
proofs checking the natural-language specification against it.

Modelling conventions:
* Python runtime errors are values of `PyError`; a function that can raise
  returns `Except PyError α`.
* `hashlib.sha256(s.encode()).hexdigest()` and `str()` of a transaction list
  are external-library functions; they are abstracted as the fields of an
  `Env` parameter threaded through the definitions.
* `datetime.datetime.now()` is nondeterministic input; constructors take the
  rendered current time as an explicit `now : String` argument.
* The dynamic presence of the `hash` attribute on a block (the code uses
  `delattr(block, "hash")`) is modelled as `hash : Option String`; reading the
  attribute when it is absent raises `AttributeError`.
-/

/-- A transaction record, kept opaque (the core never inspects it). -/
abbrev Tx := String

/-- Python runtime errors that the modelled code can raise. -/
inductive PyError where
  | attributeError (name : String)
  | nameError (name : String)
  | typeError (kw : String)
  | indexError
  | exception (msg : String)
deriving DecidableEq, Repr

/-- External collaborators of the core, abstracted: the SHA-256 hex digest
from `hashlib` and the Python `str()` rendering of a transaction list. -/
structure Env where
  sha256hex : String → String
  strTxs : List Tx → String

/-- Model of Python `s.startswith(pre)`. -/
def pyStartswith (s pre : String) : Bool :=
  s.toList.take pre.length == pre.toList

/-- The fields of a `Block` instance (node_server.py, class `Block`).
`hash` is `none` when the instance has no `hash` attribute. -/
structure Block where
  index : Int
  time_stamp : String
  transactions : List Tx
  previous_hash : String
  nonce : Nat
  hash : Option String
deriving DecidableEq, Repr

/-- Model of reading `block.hash`: raises `AttributeError` when the attribute
is absent (after a `delattr`, or if it was never set). -/
def Block.getHash (b : Block) : Except PyError String :=
  match b.hash with
  | some h => .ok h
  | none => .error (.attributeError "hash")

/-- Model of `Block.compute_hash`: the SHA-256 hex digest of
`str(self.time_stamp) + str(self.transactions) + str(self.previous_hash) +
str(self.nonce)`. It never reads the stored `hash` attribute. -/
def Block.compute_hash (env : Env) (b : Block) : String :=
  env.sha256hex (b.time_stamp ++ env.strTxs b.transactions ++ b.previous_hash ++ toString b.nonce)

/-- Model of `Block.__init__(self, index, transactions, time_stamp,
previous_hash)`: it binds `self.index`, sets `self.time_stamp` to the current
time (the `time_stamp` parameter is ignored), binds `self.transactions`,
`self.previous_hash` and `self.nonce = 0`, and then evaluates
`self.hash = self.generate_hash()`.  The class defines no method named
`generate_hash` (its digest method is `compute_hash`), so every construction
of a `Block` raises `AttributeError` before the `hash` attribute is set. -/
def Block.init (now : String) (index : Int) (transactions : List Tx)
    (time_stamp previous_hash : String) : Except PyError Block :=
  let _self : Block :=
    { index := index, time_stamp := now, transactions := transactions,
      previous_hash := previous_hash, nonce := 0, hash := none }
  let _unused := time_stamp
  -- self.hash = self.generate_hash(): attribute lookup fails.
  .error (.attributeError "generate_hash")

/-- Model of the call `Block(index=..., transactions=..., timestamp=...,
previous_hash=...)` in `Blockchain.interface`: `Block.__init__` has no
parameter named `timestamp` (it is `time_stamp`), so Python raises
`TypeError` during keyword-argument binding, before `__init__` runs. -/
def Block.callKwTimestamp (index : Int) (transactions : List Tx)
    (timestamp previous_hash : String) : Except PyError Block :=
  let _ := (index, transactions, timestamp, previous_hash)
  .error (.typeError "timestamp")

/-- The fields of a `Blockchain` instance.  `previous_block` is the extra
attribute `self.previous_block = self.chain[len(self.chain) - 1].hash` set at
the end of `Blockchain.__init__` and never updated afterwards. -/
structure Blockchain where
  chain : List Block
  unconfirmed_transactions : List Tx
  previous_block : String
deriving DecidableEq, Repr

/-- The class attribute `Blockchain.difficulty`. -/
def Blockchain.difficulty : Nat := 2

/-- Model of `Blockchain.genesis_block`: constructs
`Block(0, [], datetime.datetime.now(), "0")` — which raises `AttributeError`
inside `Block.__init__` (see `Block.init`) — and, were construction to
succeed, would store the recomputed digest in its `hash` attribute and
append it to the chain.  Returns the block to append. -/
def Blockchain.genesis_block (env : Env) (now : String) : Except PyError Block := do
  let genesis_block ← Block.init now 0 [] now "0"
  .ok { genesis_block with hash := some (genesis_block.compute_hash env) }

/-- Model of `Blockchain.__init__`: starts with an empty chain and an empty
pool, calls `genesis_block()` (which raises, see `Blockchain.genesis_block`),
then would set `self.previous_block` to the hash of the last chain entry. -/
def Blockchain.init (env : Env) (now : String) : Except PyError Blockchain := do
  let g ← Blockchain.genesis_block env now
  let chain := [g]
  let pb ← (match chain.getLast? with
    | some b => b.getHash
    | none => .error PyError.indexError)
  .ok { chain := chain, unconfirmed_transactions := [], previous_block := pb }

/-- Model of the property `Blockchain.last_block` (`self.chain[-1]`): raises
`IndexError` on an empty chain. -/
def Blockchain.last_block (bc : Blockchain) : Except PyError Block :=
  match bc.chain.getLast? with
  | some b => .ok b
  | none => .error .indexError

/-- Model of `Blockchain.is_valid(block, block_hash)`:
`block_hash.startswith('0' * Blockchain.difficulty) and
block_hash == block.compute_hash()`. -/
def Blockchain.is_valid (env : Env) (block : Block) (block_hash : String) : Bool :=
  pyStartswith block_hash (String.mk (List.replicate Blockchain.difficulty '0')) &&
    block_hash == block.compute_hash env

/-- Model of `Blockchain.add_block(block, proof)`: reads the hash of the last
block, rejects on linkage mismatch or on `is_valid` failure, and otherwise
appends `block` to the chain.  The acceptance path executes
`proof = block.previous_hash`, which only rebinds the local name `proof`;
the stored `hash` attribute of `block` is left untouched. -/
def Blockchain.add_block (env : Env) (bc : Blockchain) (block : Block)
    (proof : String) : Except PyError (Blockchain × Bool) := do
  let lb ← bc.last_block
  let previous_block_hash ← lb.getHash
  if previous_block_hash != block.previous_hash then
    .ok (bc, false)
  else if !(Blockchain.is_valid env block proof) then
    .ok (bc, false)
  else
    let _proof := block.previous_hash
    .ok ({ bc with chain := bc.chain ++ [block] }, true)

/-- Model of the bare-name lookup `difficulty` evaluated by the loop
condition of `Blockchain.proof_of_work` (`proof[:difficulty]`): the module
binds no local, enclosing, global or builtin name `difficulty` (only the
class attribute `Blockchain.difficulty` exists), so the lookup raises
`NameError`. -/
def bareDifficulty : Except PyError Nat :=
  .error (.nameError "difficulty")

/-- Model of `Blockchain.proof_of_work(block)`: computes an initial digest,
then evaluates the loop condition
`proof[:difficulty] != '0' * Blockchain.difficulty`.  Evaluating the slice
bound `difficulty` raises `NameError` (see `bareDifficulty`) on the very
first test, so the nonce-increment loop body, the final `block.nonce = 0`
reset and the `return proof` are never reached. -/
def Blockchain.proof_of_work (env : Env) (block : Block) :
    Except PyError (Block × String) := do
  let proof := block.compute_hash env
  let _d ← bareDifficulty
  -- Unreachable continuation (would reset the nonce and return the digest).
  .ok ({ block with nonce := 0 }, proof)

/-- Model of `Blockchain.add_new_transaction(transaction)`. -/
def Blockchain.add_new_transaction (bc : Blockchain) (transaction : Tx) : Blockchain :=
  { bc with unconfirmed_transactions := bc.unconfirmed_transactions ++ [transaction] }

/-- Model of `Blockchain.interface()`: returns `False` (modelled as `none`)
when the pool is empty; otherwise evaluates the keyword-argument call
`Block(index=last_block.index + 1, transactions=...,
timestamp=datetime.datetime.now(), previous_hash=last_block.hash)`.
The argument expressions (including the `last_block.hash` attribute read)
are evaluated first; binding the keyword `timestamp` then raises `TypeError`
(see `Block.callKwTimestamp`).  The continuation — mining, an `add_block`
call whose result is discarded, unconditional clearing of the pool and
returning the new index — is modelled but unreachable. -/
def Blockchain.interface (env : Env) (now : String) (bc : Blockchain) :
    Except PyError (Blockchain × Option Int) := do
  if bc.unconfirmed_transactions.isEmpty then
    .ok (bc, none)
  else do
    let last_block ← bc.last_block
    let ph ← last_block.getHash
    let new_block ← Block.callKwTimestamp (last_block.index + 1)
      bc.unconfirmed_transactions now ph
    let (new_block, proof) ← Blockchain.proof_of_work env new_block
    let (bc, _added) ← Blockchain.add_block env bc new_block proof
    .ok ({ bc with unconfirmed_transactions := [] }, some new_block.index)

/-- Model of the loop body of `Blockchain.check_chain_validity`.  For each
block: `block_hash = block.hash` (an attribute read), then
`delattr(block, "hash")`, then the test
`not cls.is_valid(block, block.hash) or previous_hash != block.previous_hash`
— whose evaluation reads `block.hash` again, immediately after the
`delattr`, and therefore raises `AttributeError` on every iteration that is
reached.  The result is the post-state of the (mutated) chain together with
the outcome; the restore `block.hash, previous_hash = block_hash, block_hash`
is unreachable. -/
def checkChainLoop (env : Env) (previous_hash : String) :
    List Block → (List Block × Except PyError Bool)
  | [] => ([], .ok true)
  | block :: rest =>
    match block.hash with
    | none =>
      -- `block_hash = block.hash` itself raises: no `hash` attribute.
      (block :: rest, .error (.attributeError "hash"))
    | some _block_hash =>
      let block := { block with hash := none }
      let _ := (env, previous_hash)
      -- `cls.is_valid(block, block.hash)`: reading `block.hash` raises.
      (block :: rest, .error (.attributeError "hash"))

/-- Model of `Blockchain.check_chain_validity(chain)`: initialises
`result = True` and `previous_hash = "0"` and iterates `checkChainLoop`
over the chain. -/
def Blockchain.check_chain_validity (env : Env) (chain : List Block) :
    (List Block × Except PyError Bool) :=
  checkChainLoop env "0" chain

/-- Which object the module-level global `blockchain` holds after
`consensus()`: the untouched `Blockchain` instance, or — on the replacement
path `blockchain = longest_chain` — the raw chain list received from a
peer. -/
inductive NodeState where
  | ledger (bc : Blockchain)
  | rawChain (chain : List Block)
deriving DecidableEq, Repr

/-- Model of the peer loop of `consensus()`: for each peer response
`(length, chain)`, when `length > current_len` it evaluates
`blockchain.check_chain_validity(chain)` (propagating any raised error) and
on a valid verdict records `current_len = length; longest_chain = chain`. -/
def consensusLoop (env : Env) (current_len : Nat) (longest_chain : Option (List Block)) :
    List (Nat × List Block) → Except PyError (Nat × Option (List Block))
  | [] => .ok (current_len, longest_chain)
  | (length, chain) :: rest =>
    if length > current_len then
      match (Blockchain.check_chain_validity env chain).2 with
      | .error e => .error e
      | .ok valid =>
        if valid then consensusLoop env length (some chain) rest
        else consensusLoop env current_len longest_chain rest
    else consensusLoop env current_len longest_chain rest

/-- Model of `consensus()`: starts from `current_len = len(blockchain.chain)`
and `longest_chain = None`, runs the peer loop, then executes
`if longest_chain: blockchain = longest_chain; return True` — note that the
truthiness test is false for both `None` and an empty list, and that the
assignment rebinds the global `blockchain` to the raw chain list, not to a
`Blockchain` instance.  Returns the boolean outcome and the resulting value
of the global. -/
def consensus (env : Env) (bc : Blockchain) (peers : List (Nat × List Block)) :
    Except PyError (Bool × NodeState) := do
  let (_, longest_chain) ← consensusLoop env bc.chain.length none peers
  match longest_chain with
  | some c => if c.isEmpty then .ok (false, .ledger bc) else .ok (true, .rawChain c)
  | none => .ok (false, .ledger bc)

/-- One entry of a serialized chain dump: the dictionary a peer sends for a
block, as read by `create_chain_from_dump` (`block_data["index"]` etc.). -/
structure BlockData where
  index : Int
  transactions : List Tx
  timestamp : String
  previous_hash : String
  hash : String
deriving DecidableEq, Repr

/-- Model of the `for idx, block_data in enumerate(chain_dump)` loop of
`create_chain_from_dump`: each iteration constructs
`Block(block_data["index"], block_data["transactions"],
block_data["timestamp"], block_data["previous_hash"])` — a positional call,
so it reaches `Block.__init__` and raises `AttributeError` there (see
`Block.init`).  The continuation — `add_block` for `idx > 0` with
`raise Exception("The chain dump is tampered!!")` on rejection, plain append
for the genesis entry — is modelled but unreachable. -/
def dumpLoop (env : Env) (now : String) :
    Nat → Blockchain → List BlockData → Except PyError Blockchain
  | _, bc, [] => .ok bc
  | idx, bc, block_data :: rest => do
    let block ← Block.init now block_data.index block_data.transactions
      block_data.timestamp block_data.previous_hash
    let proof := block_data.hash
    if idx > 0 then
      let (bc, added) ← Blockchain.add_block env bc block proof
      if !added then .error (.exception "The chain dump is tampered!!")
      else dumpLoop env now (idx + 1) bc rest
    else
      dumpLoop env now (idx + 1) { bc with chain := bc.chain ++ [block] } rest

/-- Model of `create_chain_from_dump(chain_dump)`: builds a fresh
`Blockchain()` — whose constructor already raises `AttributeError` while
building the genesis block (see `Blockchain.init`) — and would then replay
the dump through `dumpLoop`. -/
def create_chain_from_dump (env : Env) (now : String)
    (chain_dump : List BlockData) : Except PyError Blockchain := do
  let blockchain ← Blockchain.init env now
  dumpLoop env now 0 blockchain chain_dump

/-- Spec-side predicate, stated from the specification words: the hash
"begins with `difficulty` zero digits in its hex representation". -/
def spec_satisfies_difficulty (hash : String) (difficulty : Nat) : Prop :=
  hash.toList.take difficulty = List.replicate difficulty '0'

/-- A concrete environment for evaluations: every digest is the fixed
hex-looking string `"00ab"`, transaction lists render as their join. -/
def envW : Env :=
  { sha256hex := fun _ => "00ab", strTxs := fun txs => String.join txs }

/-- A concrete environment whose digests do not begin with zeros. -/
def envX : Env :=
  { sha256hex := fun _ => "ab00", strTxs := fun txs => String.join txs }

/-- A concrete genesis-like block carrying a stored hash. -/
def gW : Block :=
  { index := 0, time_stamp := "t0", transactions := [], previous_hash := "0",
    nonce := 0, hash := some "00ab" }

/-- A concrete successor block whose stored `hash` attribute is stale: it
differs from the claimed proof `"00ab"` that `add_block` will accept. -/
def bW : Block :=
  { index := 1, time_stamp := "t1", transactions := ["tx1"], previous_hash := "00ab",
    nonce := 0, hash := some "stale" }

/-- A concrete block whose `previous_hash` does not match the tip. -/
def bBad : Block :=
  { index := 1, time_stamp := "t1", transactions := ["tx1"], previous_hash := "zzz",
    nonce := 0, hash := some "stale" }

/-- A concrete ledger state holding only `gW`. -/
def bcW : Blockchain :=
  { chain := [gW], unconfirmed_transactions := [], previous_block := "00ab" }

/-- The same ledger state with one pending transaction. -/
def bcPending : Blockchain :=
  { chain := [gW], unconfirmed_transactions := ["tx1"], previous_block := "00ab" }

/-- A concrete two-entry chain dump whose second entry has a broken link
(`previous_hash = "BAD"`), i.e. a tampered dump. -/
def tamperedDump : List BlockData :=
  [{ index := 0, transactions := [], timestamp := "t0", previous_hash := "0", hash := "h0" },
   { index := 1, transactions := ["tx"], timestamp := "t1", previous_hash := "BAD", hash := "h1" }]

/-- C5: single-block validation returns true if and only if the claimed hash
equals the recomputed digest of the block and the claimed hash begins with
`difficulty` zero digits; both conjuncts are required, for every block and
every claimed hash. -/
theorem is_valid_iff_digest_and_difficulty (env : Env) (block : Block) (claimed : String) :
    Blockchain.is_valid env block claimed = true ↔
      (claimed = Block.compute_hash env block ∧
        spec_satisfies_difficulty claimed Blockchain.difficulty) := by
  simp [Blockchain.is_valid, pyStartswith, spec_satisfies_difficulty,
    Blockchain.difficulty, String.length, String.toList, and_comm]

/-- C9: on any chain whose first block carries a stored hash attribute, the
full-chain validity check deletes that attribute and immediately reads it
back, so it raises `AttributeError` instead of returning a boolean, and the
returned post-state still holds the first block with its hash attribute
deleted (the block is not restored on the failure path). -/
theorem check_chain_validity_deletes_then_reads_hash (env : Env) (b : Block)
    (rest : List Block) (h0 : String) (hb : b.hash = some h0) :
    Blockchain.check_chain_validity env (b :: rest) =
      ({ b with hash := none } :: rest, .error (.attributeError "hash")) := by
  simp [Blockchain.check_chain_validity, checkChainLoop, hb]

/-- Witness for C9 at a concrete one-block chain: the genesis-like block
`gW` stores the hash `"00ab"`, and the check raises `AttributeError`,
leaving the block with its hash attribute deleted. -/
theorem check_chain_validity_deletes_then_reads_hash_witness :
    gW.hash = some "00ab" ∧
      Blockchain.check_chain_validity envW [gW] =
        ([{ gW with hash := none }], .error (.attributeError "hash")) :=
  ⟨rfl, check_chain_validity_deletes_then_reads_hash envW gW [] "00ab" rfl⟩

/-- C1: evaluation of the full-chain validity check at a concrete non-empty
chain (one block, stored hash `"stale"`): instead of walking the chain and
returning a boolean verdict — with the genesis block checked only for its
recomputed digest — it raises `AttributeError`, because it deletes the hash
attribute of the block and then reads it. -/
theorem check_chain_validity_raises_concrete :
    Blockchain.check_chain_validity envX [bW] =
      ([{ bW with hash := none }], .error (.attributeError "hash")) := rfl

/-- C2: for every block and every environment, mining raises `NameError` on
the first evaluation of its loop condition (the bare name `difficulty` is
unbound), so it never returns a digest and never stores a winning nonce. -/
theorem proof_of_work_raises_name_error (env : Env) (block : Block) :
    Blockchain.proof_of_work env block = .error (.nameError "difficulty") := rfl

/-- C3: with an empty pool, `interface` returns the explicit empty signal
(Python `False`, modelled `none`) without error; with a pending transaction
it raises `TypeError` while constructing the candidate block (the call uses
the keyword `timestamp` but the constructor parameter is `time_stamp`), so
it never mines, appends, or clears the pool as the claim describes. -/
theorem interface_empty_signal_and_crash :
    Blockchain.interface envW "t2" bcW = .ok (bcW, none) ∧
      Blockchain.interface envW "t2" bcPending = .error (.typeError "timestamp") :=
  ⟨rfl, rfl⟩

/-- C4: with a peer reporting a strictly longer non-empty chain, consensus
raises `AttributeError` out of the validity check instead of deciding
replacement; with no peer reporting a longer chain, it keeps the local
ledger and reports no replacement. -/
theorem consensus_crashes_or_keeps :
    consensus envW bcW [(2, [bW])] = .error (.attributeError "hash") ∧
      consensus envW bcW [(1, [bW])] = .ok (false, .ledger bcW) :=
  ⟨rfl, rfl⟩

/-- C6: at a concrete accepted block whose stored hash `"stale"` differs
from the claimed hash `"00ab"`, `add_block` returns true and appends the
block unchanged — its hash attribute is not set to the claimed hash — while
a block with a stale base is rejected with no mutation. -/
theorem add_block_leaves_hash_unset :
    Blockchain.add_block envW bcW bW "00ab" =
        .ok ({ bcW with chain := [gW, bW] }, true) ∧
      bW.hash = some "stale" ∧ (some "stale" : Option String) ≠ some "00ab" ∧
      Blockchain.add_block envW bcW bBad "00ab" = .ok (bcW, false) :=
  ⟨rfl, rfl, by decide, rfl⟩

/-- C7 counterexample: rebuilding from a concrete tampered dump does not
surface an explicit rejection outcome — the call raises (an `AttributeError`
from block construction; the tampered-dump path itself is written to raise
an `Exception`), so the claim that this path never raises is false. -/
theorem create_chain_from_dump_not_explicit_rejection :
    create_chain_from_dump envW "t" tamperedDump =
        .error (.attributeError "generate_hash") ∧
      (create_chain_from_dump envW "t" tamperedDump).isOk = false :=
  ⟨rfl, rfl⟩

/-- C7 amended: rebuilding a ledger from an externally supplied chain dump
always raises rather than returning a rejection outcome — block construction
calls the undefined `generate_hash`, so the call raises `AttributeError` for
every dump (and the tampered-dump branch is itself written to raise an
`Exception`); the local chain of the caller is unaffected because the error
escapes before any assignment. -/
theorem create_chain_from_dump_always_raises (env : Env) (now : String)
    (chain_dump : List BlockData) :
    create_chain_from_dump env now chain_dump =
      .error (.attributeError "generate_hash") := rfl

/-- C8: for all constructor arguments, block construction does not complete
with the hash field left unset — it raises `AttributeError` while evaluating
`self.generate_hash()`, which is undefined on the class. -/
theorem block_init_raises_attribute_error (now : String) (index : Int)
    (transactions : List Tx) (time_stamp previous_hash : String) :
    Block.init now index transactions time_stamp previous_hash =
      .error (.attributeError "generate_hash") := rfl

/-- C10: for every environment and creation time, ledger construction raises
`AttributeError` while building the genesis block, so no ledger holding a
genesis block at index 0 with previous hash "0" is ever created. -/
theorem blockchain_init_raises_attribute_error (env : Env) (now : String) :
    Blockchain.init env now = .error (.attributeError "generate_hash") := rfl
